import Mathlib

/-!
Shallow embedding of `watchtower-plugin/src/retrier.rs` (rusty-teos):
the Retry Manager supervisor and the per-tower Retrier state machine.

Identifiers (`TowerId`, `Locator`), instants and misbehavior proofs are
opaque in the source; they are embedded as `Nat`. Hash sets are embedded
as `Finset`. The shared `WTClient` behind its mutex is embedded as an
explicit state record threaded through each operation, and every
externally observable side effect (tower-status writes, retrier-status
writes, durable-store mutations) is additionally recorded as an event in
a trace, so ordering properties can be stated about the sequential
execution.
-/

abbrev TowerId := Nat
abbrev Locator := Nat
abbrev MisbehaviorProof := Nat
abbrev Instant := Nat

/-- Tower status, from `TowerStatus` in the plugin crate (`Misbehaving`
carries the proof). -/
inductive TowerStatus where
  | Reachable
  | TemporaryUnreachable
  | Unreachable
  | SubscriptionError
  | Misbehaving (proof : MisbehaviorProof)
deriving DecidableEq, Repr

/-- Modelled from the spec: `TowerStatus::is_subscription_error` (the
method lives in the plugin crate root, outside `retrier.rs`); true
exactly on the `SubscriptionError` variant. -/
def TowerStatus.is_subscription_error : TowerStatus → Bool
  | .SubscriptionError => true
  | _ => false

/-- Retrier status, from `RetrierStatus` in `retrier.rs` (`Idle` carries
the instant idling began). -/
inductive RetrierStatus where
  | Stopped
  | Running
  | Failed
  | Idle (since : Instant)
deriving DecidableEq, Repr

/-- From `RetrierStatus::is_stopped`. -/
def RetrierStatus.is_stopped : RetrierStatus → Bool
  | .Stopped => true
  | _ => false

/-- From `RetrierStatus::is_running`. -/
def RetrierStatus.is_running : RetrierStatus → Bool
  | .Running => true
  | _ => false

/-- From `RetrierStatus::is_idle` (matches any `Idle` payload). -/
def RetrierStatus.is_idle : RetrierStatus → Bool
  | .Idle _ => true
  | _ => false

/-- From `RetrierStatus::failed`. -/
def RetrierStatus.failed : RetrierStatus → Bool
  | .Failed => true
  | _ => false

/-- From `RetrierStatus::get_elapsed_time`; `Instant::elapsed` is made
explicit by passing the current time. -/
def RetrierStatus.get_elapsed_time (now : Instant) : RetrierStatus → Option Nat
  | .Idle x => some (now - x)
  | _ => none

/-- Revocation data delivered on the manager channel, from
`RevocationData` in `wt_client.rs` (declared outside `retrier.rs`). -/
inductive RevocationData where
  | Fresh (l : Locator)
  | Stale (ls : Finset Locator)
  | None
deriving DecidableEq

/-- Modelled from the spec: `RevocationData::is_none` (defined in
`wt_client.rs`, outside `retrier.rs`); per the spec `None` is the pure
wake-up signal with no payload. -/
def RevocationData.is_none : RevocationData → Bool
  | .None => true
  | _ => false

/-- Modelled from the spec: the uniform projection `to_locator_set`
(the `From<RevocationData> for HashSet<Locator>` impl in
`wt_client.rs`, outside `retrier.rs`): `Fresh` to a singleton, `Stale`
to its set, `None` to the empty set. -/
def RevocationData.to_locator_set : RevocationData → Finset Locator
  | .Fresh l => {l}
  | .Stale ls => ls
  | .None => ∅

/-- Internal error taxonomy, from `RetryError` in `retrier.rs`. The
Bool on `Subscription` marks whether the error is permanent. -/
inductive RetryError where
  | Subscription (reason : String) (permanent : Bool)
  | Unreachable
  | Misbehaving (proof : MisbehaviorProof)
  | Abandoned
deriving DecidableEq

/-- From `RetryError::is_permanent`. -/
def RetryError.is_permanent : RetryError → Bool
  | .Subscription _ true => true
  | .Misbehaving _ => true
  | .Abandoned => true
  | _ => false

/-- The backoff crate's error wrapper: `backoff::Error::transient` vs
`backoff::Error::permanent`, as used by `Retrier::run`. -/
inductive BackoffError where
  | transient (e : RetryError)
  | permanent (e : RetryError)
deriving DecidableEq

/-- A registered tower, the slice of `Tower` that `retrier.rs` reads:
its status and its network address. -/
structure Tower where
  status : TowerStatus
  net_addr : String
deriving DecidableEq

/-- The durable store rows that `retrier.rs` manipulates: pending and
invalid appointment locators per tower, and recorded appointment
receipts. -/
structure DBM where
  pendingRows : TowerId → Finset Locator
  invalidRows : TowerId → Finset Locator
  receiptRows : TowerId → Finset Locator

/-- The shared client state (`WTClient` behind `Arc<Mutex<..>>`):
tower registry, the retrier-status mirror map, and the store handle. -/
structure WTClient where
  towers : TowerId → Option Tower
  retriers : TowerId → Option RetrierStatus
  dbm : DBM

/-- Modelled from the spec: `WTClient::get_tower_status` (defined in
`wt_client.rs`, outside `retrier.rs`); the status of the tower when
registered. -/
def WTClient.get_tower_status (wt : WTClient) (tid : TowerId) : Option TowerStatus :=
  (wt.towers tid).map Tower.status

/-- Observable side effects on the shared state, in the order the
sequential code performs them. -/
inductive Event where
  | setTowerStatus (tid : TowerId) (st : TowerStatus)
  | setRetrierStatus (tid : TowerId) (st : RetrierStatus)
  | addInvalid (tid : TowerId) (l : Locator)
  | removePending (tid : TowerId) (l : Locator)
  | addReceipt (tid : TowerId) (l : Locator)
  | flagMisbehaving (tid : TowerId) (proof : MisbehaviorProof)
  | addUpdateTower (tid : TowerId)
deriving DecidableEq

/-- How each event transforms the shared state. `setRetrierStatus`
replicates the mirror-map logic of `Retrier::set_status`: insert on
`Running` or `Idle`, remove on `Stopped`, leave intact on `Failed`.
`addUpdateTower` records that `WTClient::add_update_tower` accepted a
registration receipt; its effect on subscription bookkeeping is outside
the core and not modelled. -/
def applyEvent (wt : WTClient) : Event → WTClient
  | .setTowerStatus tid st =>
      { wt with towers := fun t =>
          if t = tid then (wt.towers t).map (fun tw => { tw with status := st })
          else wt.towers t }
  | .setRetrierStatus tid st =>
      if st.is_running || st.is_idle then
        { wt with retriers := fun t => if t = tid then some st else wt.retriers t }
      else if st.is_stopped then
        { wt with retriers := fun t => if t = tid then none else wt.retriers t }
      else wt
  | .addInvalid tid l =>
      let rows := fun t =>
        if t = tid then insert l (wt.dbm.invalidRows t) else wt.dbm.invalidRows t
      { wt with dbm := { wt.dbm with invalidRows := rows } }
  | .removePending tid l =>
      let rows := fun t =>
        if t = tid then (wt.dbm.pendingRows t).erase l else wt.dbm.pendingRows t
      { wt with dbm := { wt.dbm with pendingRows := rows } }
  | .addReceipt tid l =>
      let rows := fun t =>
        if t = tid then insert l (wt.dbm.receiptRows t) else wt.dbm.receiptRows t
      { wt with dbm := { wt.dbm with receiptRows := rows } }
  | .flagMisbehaving tid p =>
      { wt with towers := fun t =>
          if t = tid then (wt.towers t).map (fun tw => { tw with status := .Misbehaving p })
          else wt.towers t }
  | .addUpdateTower _ => wt

/-- The shared state together with the trace of side effects performed
so far. -/
structure Sys where
  wt : WTClient
  trace : List Event

/-- Perform one observable side effect: apply it to the state and log
it. -/
def Sys.emit (s : Sys) (e : Event) : Sys :=
  { wt := applyEvent s.wt e, trace := s.trace ++ [e] }

/-- `WTClient::set_tower_status` as used by the retrier. -/
def Sys.set_tower_status (s : Sys) (tid : TowerId) (st : TowerStatus) : Sys :=
  s.emit (.setTowerStatus tid st)

/-- `WTClient::flag_misbehaving_tower`: flags the tower as
`Misbehaving(proof)` (terminal, per the FSM). -/
def Sys.flag_misbehaving_tower (s : Sys) (tid : TowerId) (p : MisbehaviorProof) : Sys :=
  s.emit (.flagMisbehaving tid p)

/-- A per-tower Retrier (`Retrier` in `retrier.rs`): its tower id, its
in-memory pending locator set, and its status. The `wt_client` handle is
threaded explicitly instead. -/
structure Retrier where
  towerId : TowerId
  pending : Finset Locator
  status : RetrierStatus
deriving DecidableEq

/-- From `Retrier::new`: a fresh retrier is `Stopped` and seeded with the
given locators. -/
def Retrier.new (tid : TowerId) (locators : Finset Locator) : Retrier :=
  { towerId := tid, pending := locators, status := .Stopped }

/-- From `Retrier::has_pending_appointments`. -/
def Retrier.has_pending_appointments (r : Retrier) : Bool :=
  r.pending ≠ ∅

/-- From `Retrier::should_start`: stopped and with pending
appointments. -/
def Retrier.should_start (r : Retrier) : Bool :=
  r.status.is_stopped && r.has_pending_appointments

/-- From `Retrier::set_status`: write the status field and mirror it into
`WTClient.retriers` (the mirror logic is inside `applyEvent` for the
`setRetrierStatus` event). -/
def Retrier.set_status (r : Retrier) (s : Sys) (st : RetrierStatus) : Retrier × Sys :=
  ({ r with status := st }, s.emit (.setRetrierStatus r.towerId st))

/-- From `Retrier::remove_if_failed`: drop this retrier from
`WTClient.retriers` when it has failed. -/
def Retrier.remove_if_failed (r : Retrier) (wt : WTClient) : WTClient :=
  if r.status.failed then
    { wt with retriers := fun t => if t = r.towerId then none else wt.retriers t }
  else wt

/-- The synchronous prefix of `Retrier::start` (before the task spawn):
unwrap the tower status (`None` models the panic of `.unwrap()` on an
absent tower), set the tower to `TemporaryUnreachable` unless it is in
subscription error, then set the retrier `Running`. -/
def Retrier.start_pre (r : Retrier) (s : Sys) : Option (Retrier × Sys) :=
  match s.wt.get_tower_status r.towerId with
  | none => none
  | some st =>
      let s1 := if ¬ st.is_subscription_error then
          s.set_tower_status r.towerId .TemporaryUnreachable
        else s
      some (r.set_status s1 .Running)

/-- The tail of the spawned task in `Retrier::start`: the match on the
result of the backoff driver. On `Ok` the tower is set `Reachable` and
then the retrier `Stopped`; on a permanent error the retrier is set
`Failed` and the per-error side effect runs; on a transient give-up
(`Unreachable` or non-permanent `Subscription`) the retrier idles, its
in-memory pending set is cleared and the tower is set `Unreachable`. -/
def Retrier.finishCampaign (r : Retrier) (s : Sys) (now : Instant)
    (res : Except RetryError Unit) : Retrier × Sys :=
  match res with
  | .ok _ =>
      let s1 := s.set_tower_status r.towerId .Reachable
      r.set_status s1 .Stopped
  | .error e =>
      let (r1, s1) := if e.is_permanent then r.set_status s .Failed else (r, s)
      match e with
      | .Subscription _ true => (r1, s1.set_tower_status r.towerId .SubscriptionError)
      | .Misbehaving p => (r1, s1.flag_misbehaving_tower r.towerId p)
      | .Abandoned => (r1, s1)
      | .Subscription _ false | .Unreachable =>
          let (r2, s2) := r1.set_status s1 (.Idle now)
          ({ r2 with pending := ∅ }, s2.set_tower_status r.towerId .Unreachable)

/-- The Retry Manager's table of per-tower retriers (`RetryManager`;
the channel and tuning parameters are made explicit at each step). -/
structure RetryManager where
  retriers : TowerId → Option Retrier

/-- From `RetryManager::add_pending_appointments`: create a new
`Stopped` retrier seeded with the locators when none exists for the
tower, otherwise insert each locator into the existing retrier's pending
set (iterated `HashSet::insert`, i.e. set union). -/
def RetryManager.add_pending_appointments (m : RetryManager) (tid : TowerId)
    (locators : Finset Locator) : RetryManager :=
  match m.retriers tid with
  | none =>
      { retriers := fun t => if t = tid then some (Retrier.new tid locators) else m.retriers t }
  | some r =>
      { retriers := fun t =>
          if t = tid then some { r with pending := r.pending ∪ locators } else m.retriers t }

/-- The `Ok((tower_id, data))` branch of `RetryManager::manage_retry`:
skip abandoned towers; for an existing idle retrier, ignore
payload-bearing data, and on `None` flag it `Stopped` and extend its
pending set from the durable store's pending locators; otherwise add the
locators to the (new or existing) retrier. -/
def RetryManager.handleMessage (m : RetryManager) (s : Sys) (tid : TowerId)
    (data : RevocationData) : RetryManager × Sys :=
  if (s.wt.towers tid).isNone then (m, s)
  else match m.retriers tid with
    | some r =>
        if r.status.is_idle then
          if ¬ data.is_none then (m, s)
          else
            let (r1, s1) := r.set_status s .Stopped
            let r2 := { r1 with pending := r1.pending ∪ s1.wt.dbm.pendingRows r.towerId }
            ({ retriers := fun t => if t = tid then some r2 else m.retriers t }, s1)
        else (m.add_pending_appointments tid data.to_locator_set, s)
    | none => (m.add_pending_appointments tid data.to_locator_set, s)

/-- The reap part of the `Err(TryRecvError::Empty)` branch of
`RetryManager::manage_retry`: run `remove_if_failed` on every retrier,
then retain exactly those with `should_start() || is_running() ||
is_idle()`. -/
def RetryManager.reapPass (m : RetryManager) (wt : WTClient) : RetryManager × WTClient :=
  let wt1 : WTClient :=
    { wt with retriers := fun t =>
        match m.retriers t with
        | some r => (r.remove_if_failed wt).retriers t
        | none => wt.retriers t }
  let m1 : RetryManager :=
    { retriers := fun t =>
        match m.retriers t with
        | some r =>
            if r.should_start || r.status.is_running || r.status.is_idle then some r else none
        | none => none }
  (m1, wt1)

/-- A registration receipt as `Retrier::run` consumes it: the receipt
verification (`receipt.verify(&tower_id)`) is cryptography, out of scope
per the spec, and is embedded as a check of the signing tower id. -/
structure RegistrationReceipt where
  signer : TowerId
deriving DecidableEq

/-- Modelled from the spec: receipt signature verification against a
tower id (cryptographic primitive, outside the core). -/
def RegistrationReceipt.verify (rc : RegistrationReceipt) (tid : TowerId) : Bool :=
  rc.signer = tid

/-- The outcome of `WTClient::add_update_tower` per the spec interface:
`Ok | ExpiryRejected | SlotsRejected` (`e.is_expiry()` discriminates the
two rejections). -/
inductive AddUpdateResult where
  | Ok
  | ExpiryRejected
  | SlotsRejected
deriving DecidableEq

/-- The outcome of one `http::add_appointment` call as `Retrier::run`
matches on it: success, a request (transport) error that is or is not a
connection error, an API error with a numeric code, or a signature error
carrying a misbehavior proof. -/
inductive AddApptOutcome where
  | success (slots : Nat)
  | requestError (isConn : Bool)
  | apiError (errorCode : Nat)
  | signatureError (proof : MisbehaviorProof)
deriving DecidableEq

/-- Modelled from the spec: the opaque error-code constant
`teos_common::errors::INVALID_SIGNATURE_OR_SUBSCRIPTION_ERROR`; its
numeric value is irrelevant, only equality with response codes is. -/
def INVALID_SIGNATURE_OR_SUBSCRIPTION_ERROR : Nat := 2

/-- The network client's responses for one campaign: the result of
`http::register` (error = transport failure), the result of
`WTClient::add_update_tower` on the returned receipt, and the response
of `http::add_appointment` for each locator. -/
structure NetOracle where
  registerResult : Except Unit RegistrationReceipt
  addUpdateResult : AddUpdateResult
  addAppointmentResult : Locator → AddApptOutcome

/-- The body of the `for locator in locators` loop in `Retrier::run`:
on success remove the locator from the in-memory pending set, record the
receipt, then delete the pending row; a non-connection request error
falls through silently; a connection error returns transient
`Unreachable`; the subscription API error flags the tower and returns a
transient non-permanent `Subscription`; any other API error moves the
appointment to invalid (insert invalid first, then remove pending); a
signature error returns permanent `Misbehaving`. `Except.error` carries
the state at the early return. -/
def processLocator (o : NetOracle) (tid : TowerId) (st : Retrier × Sys) (loc : Locator) :
    Except (BackoffError × Retrier × Sys) (Retrier × Sys) :=
  let (r, s) := st
  match o.addAppointmentResult loc with
  | .success _ =>
      let r1 := { r with pending := r.pending.erase loc }
      let s1 := (s.emit (.addReceipt tid loc)).emit (.removePending tid loc)
      .ok (r1, s1)
  | .requestError isConn =>
      if isConn then .error (.transient .Unreachable, r, s)
      else .ok (r, s)
  | .apiError code =>
      if code = INVALID_SIGNATURE_OR_SUBSCRIPTION_ERROR then
        let s1 := s.set_tower_status tid .SubscriptionError
        .error (.transient (.Subscription "Subscription error" false), r, s1)
      else
        let r1 := { r with pending := r.pending.erase loc }
        let s1 := (s.emit (.addInvalid tid loc)).emit (.removePending tid loc)
        .ok (r1, s1)
  | .signatureError p => .error (.permanent (.Misbehaving p), r, s)

/-- The `for` loop of `Retrier::run` over a snapshot of the pending
locators, propagating early returns. -/
def processList (o : NetOracle) (tid : TowerId) :
    List Locator → Retrier × Sys → Except (BackoffError × Retrier × Sys) (Retrier × Sys)
  | [], st => .ok st
  | l :: ls, st =>
      match processLocator o tid st l with
      | .ok st1 => processList o tid ls st1
      | .error e => .error e

/-- The `while self.has_pending_appointments()` loop of `Retrier::run`,
with explicit fuel: `none` means the fuel ran out with the loop still
going (the Rust loop simply keeps iterating). Each pass snapshots the
pending set (sorted: hash-set iteration order is arbitrary) and runs the
inner `for` loop. -/
def runLoop (o : NetOracle) (tid : TowerId) :
    Nat → Retrier × Sys → Option (Except (BackoffError × Retrier × Sys) (Retrier × Sys))
  | 0, _ => none
  | fuel + 1, (r, s) =>
      if r.pending = ∅ then some (.ok (r, s))
      else
        match processList o tid (r.pending.sort (· ≤ ·)) (r, s) with
        | .error e => some (.error e)
        | .ok st1 => runLoop o tid fuel st1

/-- `Retrier::run`: snapshot the tower (absent tower is permanent
`Abandoned`); if its status is subscription error, re-register first —
transport failure is a transient non-permanent `Subscription`, a receipt
failing verification is a permanent `Subscription`, a rejection by
`add_update_tower` is a permanent `Subscription` (reason by
`is_expiry`); only then run the submission loop. -/
def Retrier.run (o : NetOracle) (fuel : Nat) (r : Retrier) (s : Sys) :
    Option (Except (BackoffError × Retrier × Sys) (Retrier × Sys)) :=
  match s.wt.towers r.towerId with
  | none => some (.error (.permanent .Abandoned, r, s))
  | some tw =>
      if tw.status.is_subscription_error then
        match o.registerResult with
        | .error _ =>
            some (.error (.transient
              (.Subscription "Cannot renew registration with tower" false), r, s))
        | .ok rc =>
            if ¬ rc.verify r.towerId then
              some (.error (.permanent (.Subscription
                "Registration receipt contains bad signature. Are you using the right tower_id?"
                true), r, s))
            else
              match o.addUpdateResult with
              | .ExpiryRejected =>
                  some (.error (.permanent (.Subscription
                    "Registration receipt contains a subscription expiry that is not higher than the one we are currently registered for"
                    true), r, s))
              | .SlotsRejected =>
                  some (.error (.permanent (.Subscription
                    "Registration receipt does not contain more slots than the ones we are currently registered for"
                    true), r, s))
              | .Ok => runLoop o r.towerId fuel (r, s.emit (.addUpdateTower r.towerId))
      else runLoop o r.towerId fuel (r, s)

/-! Concrete fixtures used by witnesses and counterexamples. -/

/-- An empty durable store. -/
def dbm0 : DBM := ⟨fun _ => ∅, fun _ => ∅, fun _ => ∅⟩

/-- A client state with no towers and no retriers. -/
def wt0 : WTClient := ⟨fun _ => none, fun _ => none, dbm0⟩

/-- A reachable tower fixture. -/
def tower0 : Tower := ⟨.Reachable, "addr"⟩

/-- A client state with tower 0 registered as reachable. -/
def wt1 : WTClient := ⟨fun t => if t = 0 then some tower0 else none, fun _ => none, dbm0⟩

/-- System state over `wt0` with an empty trace. -/
def sys0 : Sys := ⟨wt0, []⟩

/-- System state over `wt1` with an empty trace. -/
def sys1 : Sys := ⟨wt1, []⟩

/-- C7: a message for a tower absent from `ClientState.towers` is
ignored: no retrier is created or modified and the state is left
unchanged. -/
theorem manager_ignores_abandoned_tower (m : RetryManager) (s : Sys) (tid : TowerId)
    (h : s.wt.towers tid = none) :
    ∀ d, m.handleMessage s tid d = (m, s) := by
  intro d
  simp [RetryManager.handleMessage, h]

/-- Witness for C7 at a concrete input: the empty manager and an
abandoned tower id. -/
theorem manager_ignores_abandoned_tower_witness :
    RetryManager.handleMessage ⟨fun _ => none⟩ sys0 0 (.Fresh 1) = (⟨fun _ => none⟩, sys0) :=
  manager_ignores_abandoned_tower ⟨fun _ => none⟩ sys0 0 rfl (.Fresh 1)

/-- C1 counterexample: it is not the case that a retrier is dropped by
the reap pass exactly when it is not running, not idle and has no
pending appointments — a `Failed` retrier with pending appointments is
dropped nonetheless. -/
theorem reap_drop_condition_cex :
    ¬ (∀ (m : RetryManager) (wt : WTClient) (tid : TowerId) (r : Retrier),
        m.retriers tid = some r →
        (((m.reapPass wt).1.retriers tid = none) ↔
          (r.status.is_running = false ∧ r.status.is_idle = false ∧ r.pending = ∅))) := by
  intro h
  have h0 := h ⟨fun t => if t = 0 then some ⟨0, {0}, .Failed⟩ else none⟩ wt0 0
    ⟨0, {0}, .Failed⟩ (by simp)
  have h1 := h0.mp (by rfl)
  simpa using h1.2.2

/-- The retain condition of the reap pass, characterized by status:
kept iff `Running`, `Idle`, or `Stopped` with pending appointments. -/
theorem retain_bool_iff (r : Retrier) :
    (r.should_start || r.status.is_running || r.status.is_idle) = true ↔
      (r.status = .Running ∨ (∃ t0, r.status = .Idle t0) ∨
        (r.status = .Stopped ∧ r.pending ≠ ∅)) := by
  unfold Retrier.should_start Retrier.has_pending_appointments
  cases hst : r.status <;>
    simp [RetrierStatus.is_stopped, RetrierStatus.is_running, RetrierStatus.is_idle, hst]

/-- C1 (amended): after a reap pass a retrier remains in the manager's
map iff it is `Running`, or `Idle`, or `Stopped` with non-empty pending
appointments; in particular a `Failed` retrier is dropped even when it
still holds pending appointments. -/
theorem reap_retains_iff (m : RetryManager) (wt : WTClient) (tid : TowerId) (r : Retrier) :
    (m.reapPass wt).1.retriers tid = some r ↔
      (m.retriers tid = some r ∧
        (r.status = .Running ∨ (∃ t0, r.status = .Idle t0) ∨
          (r.status = .Stopped ∧ r.pending ≠ ∅))) := by
  show (match m.retriers tid with
        | some r0 =>
            if r0.should_start || r0.status.is_running || r0.status.is_idle then some r0 else none
        | none => none) = some r ↔ _
  cases hm : m.retriers tid with
  | none => simp
  | some r0 =>
      simp only []
      constructor
      · intro he
        by_cases hc : (r0.should_start || r0.status.is_running || r0.status.is_idle) = true
        · rw [if_pos hc] at he
          injection he with he2
          subst he2
          exact ⟨rfl, (retain_bool_iff r0).mp hc⟩
        · rw [if_neg hc] at he
          exact absurd he (by simp)
      · intro hx
        obtain ⟨he, hd⟩ := hx
        injection he with he2
        subst he2
        rw [if_pos ((retain_bool_iff _).mpr hd)]

/-- A client state with tower 0 reachable and a `Running` retrier
mirror entry for it. -/
def wtR : WTClient :=
  ⟨fun t => if t = 0 then some tower0 else none,
   fun t => if t = 0 then some .Running else none, dbm0⟩

/-- System state over `wtR` with an empty trace. -/
def sysR : Sys := ⟨wtR, []⟩

/-- C3: when the backoff driver ends with `Ok`, the tower-status write
to `Reachable` strictly precedes the retrier-status write to `Stopped`
(which clears the `ClientState.retriers` entry), and at no intermediate
point of the sequential execution is the retrier already cleared while
the tower is not yet `Reachable`. -/
theorem success_orders_tower_before_retrier (r : Retrier) (s : Sys) (now : Instant)
    (tw : Tower) (rs0 : RetrierStatus)
    (htw : s.wt.towers r.towerId = some tw)
    (hrs : s.wt.retriers r.towerId = some rs0) :
    (r.finishCampaign s now (.ok ())).2.trace =
        s.trace ++ [.setTowerStatus r.towerId .Reachable,
                    .setRetrierStatus r.towerId .Stopped] ∧
    (r.finishCampaign s now (.ok ())).1.status = .Stopped ∧
    (r.finishCampaign s now (.ok ())).2.wt.retriers r.towerId = none ∧
    (r.finishCampaign s now (.ok ())).2.wt.towers r.towerId =
        some { tw with status := .Reachable } ∧
    (∀ k, k ≤ 2 →
      (([Event.setTowerStatus r.towerId .Reachable,
         Event.setRetrierStatus r.towerId .Stopped].take k).foldl applyEvent s.wt).retriers
          r.towerId = none →
      (([Event.setTowerStatus r.towerId .Reachable,
         Event.setRetrierStatus r.towerId .Stopped].take k).foldl applyEvent s.wt).towers
          r.towerId = some { tw with status := .Reachable }) := by
  refine ⟨?_, ?_, ?_, ?_, ?_⟩
  · simp [Retrier.finishCampaign, Retrier.set_status, Sys.set_tower_status, Sys.emit]
  · simp [Retrier.finishCampaign, Retrier.set_status, Sys.set_tower_status, Sys.emit]
  · simp [Retrier.finishCampaign, Retrier.set_status, Sys.set_tower_status, Sys.emit,
      applyEvent, RetrierStatus.is_running, RetrierStatus.is_idle, RetrierStatus.is_stopped]
  · simp [Retrier.finishCampaign, Retrier.set_status, Sys.set_tower_status, Sys.emit,
      applyEvent, RetrierStatus.is_running, RetrierStatus.is_idle, RetrierStatus.is_stopped,
      htw]
  · intro k hk
    interval_cases k
    · simp [hrs]
    · simp [applyEvent, hrs]
    · simp [applyEvent, RetrierStatus.is_running, RetrierStatus.is_idle,
        RetrierStatus.is_stopped, htw]

/-- Witness for C3 at a concrete input: the trace of a successful
campaign for tower 0 is exactly the tower write followed by the retrier
write. -/
theorem success_orders_tower_before_retrier_witness :
    ((Retrier.mk 0 ∅ .Running).finishCampaign sysR 5 (.ok ())).2.trace =
      [.setTowerStatus 0 .Reachable, .setRetrierStatus 0 .Stopped] := by
  have h := success_orders_tower_before_retrier (Retrier.mk 0 ∅ .Running) sysR 5 tower0
    .Running rfl rfl
  simpa [sysR] using h.1

/-- C4: when the backoff driver gives up with a transient error
(`Unreachable` or non-permanent `Subscription`), the retrier becomes
`Idle(now)`, its in-memory pending set is cleared, and the tower is set
`Unreachable`; hence the resulting idle retrier has no in-memory pending
appointments. -/
theorem transient_giveup_idles (r : Retrier) (s : Sys) (now : Instant) (e : RetryError)
    (tw : Tower)
    (htw : s.wt.towers r.towerId = some tw)
    (he : e = .Unreachable ∨ ∃ msg, e = .Subscription msg false) :
    (r.finishCampaign s now (.error e)).1.status = .Idle now ∧
    (r.finishCampaign s now (.error e)).1.pending = ∅ ∧
    (r.finishCampaign s now (.error e)).2.wt.towers r.towerId =
        some { tw with status := .Unreachable } ∧
    (∀ t0, (r.finishCampaign s now (.error e)).1.status = .Idle t0 →
      (r.finishCampaign s now (.error e)).1.pending = ∅) := by
  rcases he with rfl | ⟨msg, rfl⟩ <;>
    refine ⟨?_, ?_, ?_, fun t0 _ => ?_⟩ <;>
      simp [Retrier.finishCampaign, Retrier.set_status, Sys.set_tower_status, Sys.emit,
        applyEvent, RetryError.is_permanent, RetrierStatus.is_running, RetrierStatus.is_idle,
        RetrierStatus.is_stopped, htw]

/-- Witness for C4 at a concrete input: a transient `Unreachable`
give-up idles the retrier, empties pending and marks tower 0
unreachable. -/
theorem transient_giveup_idles_witness :
    ((Retrier.mk 0 {7} .Running).finishCampaign sysR 9 (.error .Unreachable)).1.status =
        .Idle 9 ∧
    ((Retrier.mk 0 {7} .Running).finishCampaign sysR 9 (.error .Unreachable)).1.pending = ∅ ∧
    ((Retrier.mk 0 {7} .Running).finishCampaign sysR 9 (.error .Unreachable)).2.wt.towers 0 =
        some { tower0 with status := .Unreachable } := by
  have h := transient_giveup_idles (Retrier.mk 0 {7} .Running) sysR 9 .Unreachable tower0
    rfl (Or.inl rfl)
  exact ⟨h.1, h.2.1, h.2.2.1⟩

/-- C5: a non-subscription API rejection is classified locally: the
appointment is added to invalid-appointments strictly before the pending
row is removed from the durable store, the locator leaves the in-memory
pending set, no error is returned, and the `for` loop continues with the
next locator. -/
theorem api_reject_invalidates_locally (o : NetOracle) (tid : TowerId) (r : Retrier)
    (s : Sys) (loc : Locator) (code : Nat)
    (h1 : o.addAppointmentResult loc = .apiError code)
    (h2 : code ≠ INVALID_SIGNATURE_OR_SUBSCRIPTION_ERROR) :
    ∃ r1 s1, processLocator o tid (r, s) loc = .ok (r1, s1) ∧
      r1.pending = r.pending.erase loc ∧
      loc ∉ r1.pending ∧
      s1.trace = s.trace ++ [.addInvalid tid loc, .removePending tid loc] ∧
      s1.wt.dbm.invalidRows tid = insert loc (s.wt.dbm.invalidRows tid) ∧
      s1.wt.dbm.pendingRows tid = (s.wt.dbm.pendingRows tid).erase loc ∧
      (∀ rest, processList o tid (loc :: rest) (r, s) = processList o tid rest (r1, s1)) := by
  refine ⟨{ r with pending := r.pending.erase loc },
    (s.emit (.addInvalid tid loc)).emit (.removePending tid loc), ?_, rfl, ?_, ?_, ?_, ?_, ?_⟩
  · simp [processLocator, h1, h2]
  · exact Finset.not_mem_erase loc r.pending
  · simp [Sys.emit]
  · simp [Sys.emit, applyEvent]
  · simp [Sys.emit, applyEvent]
  · intro rest
    simp [processList, processLocator, h1, h2]

/-- Witness for C5 at a concrete input: error code 1 (not the
subscription code) moves locator 7 from pending to invalid with the
add-invalid event strictly first. -/
theorem api_reject_invalidates_locally_witness :
    ∃ r1 s1,
      processLocator ⟨.error (), .Ok, fun _ => .apiError 1⟩ 0 (Retrier.mk 0 {7} .Running, sysR)
          7 = .ok (r1, s1) ∧
      r1.pending = ({7} : Finset Locator).erase 7 ∧
      7 ∉ r1.pending ∧
      s1.trace = [.addInvalid 0 7, .removePending 0 7] ∧
      s1.wt.dbm.invalidRows 0 = insert 7 (sysR.wt.dbm.invalidRows 0) ∧
      s1.wt.dbm.pendingRows 0 = (sysR.wt.dbm.pendingRows 0).erase 7 := by
  have h := api_reject_invalidates_locally ⟨.error (), .Ok, fun _ => .apiError 1⟩ 0
    (Retrier.mk 0 {7} .Running) sysR 7 1 rfl (by decide)
  obtain ⟨r1, s1, ha, hb, hc, hd, he, hf, -⟩ := h
  exact ⟨r1, s1, ha, hb, hc, by simpa [sysR] using hd, he, hf⟩

/-- Processing any list of locators whose responses are all
non-connection request errors leaves the state unchanged and returns no
error. -/
theorem processList_nonconn (o : NetOracle) (tid : TowerId) (st : Retrier × Sys) :
    ∀ L : List Locator, (∀ l ∈ L, o.addAppointmentResult l = .requestError false) →
      processList o tid L st = .ok st := by
  intro L
  induction L generalizing st with
  | nil => intro _; rfl
  | cons l ls ih =>
      intro hall
      obtain ⟨r, s⟩ := st
      have hl : o.addAppointmentResult l = .requestError false := hall l (by simp)
      simp only [processList, processLocator, hl]
      exact ih (r, s) (fun x hx => hall x (by simp [hx]))

/-- C10: a non-connection `RequestError` is silently skipped — the
locator stays in pending, no store row changes, no error is returned —
and while every remaining locator keeps failing this way the
`while`-loop over non-empty pending never terminates (for every fuel
bound the loop is still running). -/
theorem nonconn_request_error_loops (o : NetOracle) (tid : TowerId) (r : Retrier) (s : Sys)
    (hall : ∀ l ∈ r.pending, o.addAppointmentResult l = .requestError false)
    (hne : r.pending ≠ ∅) :
    (∀ l, o.addAppointmentResult l = .requestError false →
      processLocator o tid (r, s) l = .ok (r, s)) ∧
    (∀ fuel, runLoop o tid fuel (r, s) = none) := by
  constructor
  · intro l hl
    simp [processLocator, hl]
  · intro fuel
    induction fuel with
    | zero => rfl
    | succ n ih =>
        have hsorted : ∀ l ∈ r.pending.sort (· ≤ ·),
            o.addAppointmentResult l = .requestError false := by
          intro l hl
          exact hall l ((Finset.mem_sort (· ≤ ·)).mp hl)
        simp only [runLoop, if_neg hne, processList_nonconn o tid (r, s) _ hsorted]
        exact ih

/-- Witness for C10 at a concrete input: with every response a
non-connection request error, one locator is skipped with no state
change and the loop is still running after three full passes. -/
theorem nonconn_request_error_loops_witness :
    processLocator ⟨.error (), .Ok, fun _ => .requestError false⟩ 0
        (Retrier.mk 0 {3} .Running, sysR) 3 = .ok (Retrier.mk 0 {3} .Running, sysR) ∧
    runLoop ⟨.error (), .Ok, fun _ => .requestError false⟩ 0 3
        (Retrier.mk 0 {3} .Running, sysR) = none := by
  have h := nonconn_request_error_loops ⟨.error (), .Ok, fun _ => .requestError false⟩ 0
    (Retrier.mk 0 {3} .Running) sysR (by intro l _; rfl) (by decide)
  exact ⟨h.1 3 rfl, h.2 3⟩

/-- Adding the same locator set twice to the manager's table yields the
same table as adding it once (set semantics of the pending sets). -/
theorem add_pending_appointments_idem (m : RetryManager) (tid : TowerId) (L : Finset Locator) :
    (m.add_pending_appointments tid L).add_pending_appointments tid L =
      m.add_pending_appointments tid L := by
  cases hm : m.retriers tid with
  | none =>
      simp only [RetryManager.add_pending_appointments, hm]
      refine congrArg RetryManager.mk (funext fun t => ?_)
      by_cases ht : t = tid
      · subst ht
        simp [Retrier.new]
      · simp [ht]
  | some r =>
      simp only [RetryManager.add_pending_appointments, hm]
      refine congrArg RetryManager.mk (funext fun t => ?_)
      by_cases ht : t = tid
      · subst ht
        simp [Finset.union_assoc]
      · simp [ht]

/-- C8: delivering locators for a tower whose retrier exists and is not
idle is an idempotent set-union — handling the same message twice
produces the same manager state and system state as handling it once,
the resulting pending set is the union with the delivered locators, and
a `Fresh(l)` delivery puts exactly the one entry `l` into the set. -/
theorem add_pending_idempotent (m : RetryManager) (s : Sys) (tid : TowerId)
    (d : RevocationData) (r : Retrier)
    (htw : (s.wt.towers tid).isSome = true)
    (hr : m.retriers tid = some r)
    (hni : r.status.is_idle = false) :
    ((m.handleMessage s tid d).1.handleMessage (m.handleMessage s tid d).2 tid d =
      m.handleMessage s tid d) ∧
    (m.handleMessage s tid d).1.retriers tid =
      some { r with pending := r.pending ∪ d.to_locator_set } ∧
    (∀ l, d = .Fresh l → ∃ r1, (m.handleMessage s tid d).1.retriers tid = some r1 ∧
      l ∈ r1.pending) := by
  obtain ⟨tw, htw1⟩ := Option.isSome_iff_exists.mp htw
  have hmsg : ∀ m1 : RetryManager, ∀ r1 : Retrier, m1.retriers tid = some r1 →
      r1.status.is_idle = false →
      m1.handleMessage s tid d = (m1.add_pending_appointments tid d.to_locator_set, s) := by
    intro m1 r1 hr1 hni1
    simp [RetryManager.handleMessage, htw1, hr1, hni1]
  have h1 : m.handleMessage s tid d = (m.add_pending_appointments tid d.to_locator_set, s) :=
    hmsg m r hr hni
  have hadd : m.add_pending_appointments tid d.to_locator_set =
      ⟨fun t => if t = tid then some { r with pending := r.pending ∪ d.to_locator_set }
        else m.retriers t⟩ := by
    simp [RetryManager.add_pending_appointments, hr]
  have hr1 : (m.add_pending_appointments tid d.to_locator_set).retriers tid =
      some { r with pending := r.pending ∪ d.to_locator_set } := by
    rw [hadd]
    simp
  refine ⟨?_, ?_, ?_⟩
  · rw [h1]
    rw [hmsg (m.add_pending_appointments tid d.to_locator_set)
      { r with pending := r.pending ∪ d.to_locator_set } hr1 hni]
    rw [add_pending_appointments_idem]
  · rw [h1]
    exact hr1
  · intro l hd
    subst hd
    refine ⟨{ r with pending := r.pending ∪ RevocationData.to_locator_set (.Fresh l) }, ?_, ?_⟩
    · rw [h1]
      exact hr1
    · simp [RevocationData.to_locator_set]

/-- Witness for C8 at a concrete input: delivering `Fresh 7` twice to a
running retrier for tower 0 equals delivering it once, and the pending
set picks up the single entry 7. -/
theorem add_pending_idempotent_witness :
    (let m0 : RetryManager := ⟨fun t => if t = 0 then some (Retrier.mk 0 ∅ .Running) else none⟩
     ((m0.handleMessage sysR 0 (.Fresh 7)).1.handleMessage
        (m0.handleMessage sysR 0 (.Fresh 7)).2 0 (.Fresh 7) =
       m0.handleMessage sysR 0 (.Fresh 7)) ∧
     (m0.handleMessage sysR 0 (.Fresh 7)).1.retriers 0 =
       some { Retrier.mk 0 ∅ .Running with
              pending := ∅ ∪ RevocationData.to_locator_set (.Fresh 7) }) := by
  have h := add_pending_idempotent
    ⟨fun t => if t = 0 then some (Retrier.mk 0 ∅ .Running) else none⟩ sysR 0 (.Fresh 7)
    (Retrier.mk 0 ∅ .Running) rfl rfl rfl
  exact ⟨h.1, h.2.1⟩

/-- A durable store holding one pending row (locator 5) for tower 0. -/
def dbmP : DBM := ⟨fun t => if t = 0 then {5} else ∅, fun _ => ∅, fun _ => ∅⟩

/-- A client state with tower 0 present and an `Idle` retrier mirror
entry, over the store `dbmP`. -/
def wtI : WTClient :=
  ⟨fun t => if t = 0 then some tower0 else none,
   fun t => if t = 0 then some (.Idle 1) else none, dbmP⟩

/-- System state over `wtI` with an empty trace. -/
def sysI : Sys := ⟨wtI, []⟩

/-- C6: a message to an existing idle retrier is ignored when it carries
locators (`Fresh`, or a non-empty `Stale`), without crashing and leaving
the retrier idle; a `None` wake-up flips the retrier `Idle → Stopped`
and repopulates its pending set from the durable store's pending
locators for that tower. -/
theorem idle_retrier_message_handling (m : RetryManager) (s : Sys) (tid : TowerId)
    (r : Retrier) (t0 : Instant) (tw : Tower)
    (htw : s.wt.towers tid = some tw)
    (hr : m.retriers tid = some r)
    (hid : r.status = .Idle t0) :
    (∀ l, m.handleMessage s tid (.Fresh l) = (m, s)) ∧
    (∀ L : Finset Locator, L ≠ ∅ → m.handleMessage s tid (.Stale L) = (m, s)) ∧
    (∃ r2 s1, m.handleMessage s tid .None =
        (⟨fun t => if t = tid then some r2 else m.retriers t⟩, s1) ∧
      r2.status = .Stopped ∧
      r2.pending = r.pending ∪ s.wt.dbm.pendingRows r.towerId ∧
      (r.pending = ∅ → r2.pending = s.wt.dbm.pendingRows r.towerId) ∧
      s1.wt.retriers r.towerId = none ∧
      s1.wt.towers = s.wt.towers) := by
  have hidb : r.status.is_idle = true := by rw [hid]; rfl
  refine ⟨?_, ?_, ?_⟩
  · intro l
    simp [RetryManager.handleMessage, htw, hr, hidb, RevocationData.is_none]
  · intro L hL
    simp [RetryManager.handleMessage, htw, hr, hidb, RevocationData.is_none]
  · refine ⟨⟨r.towerId, r.pending ∪ s.wt.dbm.pendingRows r.towerId, .Stopped⟩,
      s.emit (.setRetrierStatus r.towerId .Stopped), ?_, rfl, rfl, ?_, ?_, ?_⟩
    · simp [RetryManager.handleMessage, htw, hr, hid, RevocationData.is_none,
        Retrier.set_status, Sys.emit, applyEvent, RetrierStatus.is_running,
        RetrierStatus.is_idle, RetrierStatus.is_stopped]
    · intro hp
      simp [hp]
    · simp [Sys.emit, applyEvent, RetrierStatus.is_running, RetrierStatus.is_idle,
        RetrierStatus.is_stopped]
    · simp [Sys.emit, applyEvent, RetrierStatus.is_running, RetrierStatus.is_idle,
        RetrierStatus.is_stopped]

/-- Witness for C6 at a concrete input: an idle retrier for tower 0
ignores `Fresh 9` and a non-empty `Stale`, and on `None` is flagged
`Stopped` with its pending set reloaded as the store's row set. -/
theorem idle_retrier_message_handling_witness :
    (RetryManager.handleMessage ⟨fun t => if t = 0 then some (Retrier.mk 0 ∅ (.Idle 1)) else none⟩
        sysI 0 (.Fresh 9) =
      (⟨fun t => if t = 0 then some (Retrier.mk 0 ∅ (.Idle 1)) else none⟩, sysI)) ∧
    (∃ r2 s1, RetryManager.handleMessage
        ⟨fun t => if t = 0 then some (Retrier.mk 0 ∅ (.Idle 1)) else none⟩ sysI 0 .None =
        (⟨fun t => if t = 0 then some r2 else
          (fun t => if t = 0 then some (Retrier.mk 0 ∅ (.Idle 1)) else none) t⟩, s1) ∧
      r2.status = .Stopped ∧
      r2.pending = ∅ ∪ sysI.wt.dbm.pendingRows 0 ∧
      s1.wt.retriers 0 = none) := by
  have h := idle_retrier_message_handling
    ⟨fun t => if t = 0 then some (Retrier.mk 0 ∅ (.Idle 1)) else none⟩ sysI 0
    (Retrier.mk 0 ∅ (.Idle 1)) 1 tower0 rfl rfl rfl
  refine ⟨h.1 9, ?_⟩
  obtain ⟨r2, s1, ha, hb, hc, -, he, -⟩ := h.2.2
  exact ⟨r2, s1, ha, hb, hc, he⟩

/-- C9: `Retrier::start` unwraps the tower status unconditionally — on
an absent tower the unwrap panics (modelled as `none`); when the tower
is present the panic branch is unreachable, the tower is set
`TemporaryUnreachable` exactly when its status is not
`SubscriptionError`, and the retrier is then set `Running`. -/
theorem start_unwraps_tower_status (r : Retrier) (s : Sys) :
    (s.wt.towers r.towerId = none → r.start_pre s = none) ∧
    (∀ tw, s.wt.towers r.towerId = some tw →
      ∃ r1 s1, r.start_pre s = some (r1, s1) ∧
        r1.status = .Running ∧
        s1.wt.towers r.towerId =
          some (if tw.status.is_subscription_error then tw
                else { tw with status := .TemporaryUnreachable }) ∧
        s1.wt.retriers r.towerId = some .Running) := by
  constructor
  · intro h
    simp [Retrier.start_pre, WTClient.get_tower_status, h]
  · intro tw htw
    by_cases hsub : tw.status.is_subscription_error = true
    · refine ⟨{ r with status := .Running },
        s.emit (.setRetrierStatus r.towerId .Running), ?_, rfl, ?_, ?_⟩
      · simp [Retrier.start_pre, WTClient.get_tower_status, htw, hsub, Retrier.set_status]
      · simp [Sys.emit, applyEvent, RetrierStatus.is_running, htw, hsub]
      · simp [Sys.emit, applyEvent, RetrierStatus.is_running]
    · refine ⟨{ r with status := .Running },
        (s.set_tower_status r.towerId .TemporaryUnreachable).emit
          (.setRetrierStatus r.towerId .Running), ?_, rfl, ?_, ?_⟩
      · simp [Retrier.start_pre, WTClient.get_tower_status, htw, hsub, Retrier.set_status]
      · simp [Sys.set_tower_status, Sys.emit, applyEvent, RetrierStatus.is_running, htw, hsub]
      · simp [Sys.set_tower_status, Sys.emit, applyEvent, RetrierStatus.is_running]

/-- Witness for C9 at concrete inputs: starting a retrier for absent
tower 1 hits the panic branch, and for present (reachable) tower 0 the
tower becomes `TemporaryUnreachable` and the retrier `Running`. -/
theorem start_unwraps_tower_status_witness :
    (Retrier.mk 1 ∅ .Stopped).start_pre sys1 = none ∧
    (∃ r1 s1, (Retrier.mk 0 ∅ .Stopped).start_pre sys1 = some (r1, s1) ∧
      r1.status = .Running ∧
      s1.wt.towers 0 = some (if tower0.status.is_subscription_error then tower0
        else { tower0 with status := .TemporaryUnreachable }) ∧
      s1.wt.retriers 0 = some .Running) := by
  refine ⟨(start_unwraps_tower_status (Retrier.mk 1 ∅ .Stopped) sys1).1 rfl, ?_⟩
  exact (start_unwraps_tower_status (Retrier.mk 0 ∅ .Stopped) sys1).2 tower0 rfl

/-- A tower fixture in subscription error. -/
def towerS : Tower := ⟨.SubscriptionError, "addr"⟩

/-- A client state with tower 0 in subscription error. -/
def wtS : WTClient := ⟨fun t => if t = 0 then some towerS else none, fun _ => none, dbm0⟩

/-- System state over `wtS` with an empty trace. -/
def sysS : Sys := ⟨wtS, []⟩

/-- C2: when the snapshotted tower status is `SubscriptionError`,
`run()` re-registers first: a transport failure of `register` is a
transient non-permanent `Subscription`; a receipt that does not verify
against the tower id is a permanent `Subscription`; a receipt rejected
by `add_update_tower` (no strict improvement of expiry or slots) is a
permanent `Subscription`; only when all three steps succeed does `run()`
proceed to the pending-appointment submission loop. -/
theorem subscription_error_reregisters_first (o : NetOracle) (fuel : Nat) (r : Retrier)
    (s : Sys) (tw : Tower)
    (htw : s.wt.towers r.towerId = some tw)
    (hst : tw.status = .SubscriptionError) :
    (o.registerResult = .error () →
      Retrier.run o fuel r s = some (.error
        (.transient (.Subscription "Cannot renew registration with tower" false), r, s))) ∧
    (∀ rc, o.registerResult = .ok rc → rc.verify r.towerId = false →
      ∃ msg, Retrier.run o fuel r s =
        some (.error (.permanent (.Subscription msg true), r, s))) ∧
    (∀ rc, o.registerResult = .ok rc → rc.verify r.towerId = true →
      (o.addUpdateResult = .ExpiryRejected ∨ o.addUpdateResult = .SlotsRejected) →
      ∃ msg, Retrier.run o fuel r s =
        some (.error (.permanent (.Subscription msg true), r, s))) ∧
    (∀ rc, o.registerResult = .ok rc → rc.verify r.towerId = true →
      o.addUpdateResult = .Ok →
      Retrier.run o fuel r s = runLoop o r.towerId fuel
        (r, s.emit (.addUpdateTower r.towerId))) := by
  have hsub : tw.status.is_subscription_error = true := by rw [hst]; rfl
  refine ⟨?_, ?_, ?_, ?_⟩
  · intro hreg
    simp [Retrier.run, htw, hsub, hreg]
  · intro rc hreg hver
    refine ⟨"Registration receipt contains bad signature. Are you using the right tower_id?", ?_⟩
    simp [Retrier.run, htw, hsub, hreg, hver]
  · intro rc hreg hver hrej
    rcases hrej with h | h
    · refine ⟨"Registration receipt contains a subscription expiry that is not higher than the one we are currently registered for", ?_⟩
      simp [Retrier.run, htw, hsub, hreg, hver, h]
    · refine ⟨"Registration receipt does not contain more slots than the ones we are currently registered for", ?_⟩
      simp [Retrier.run, htw, hsub, hreg, hver, h]
  · intro rc hreg hver hok
    simp [Retrier.run, htw, hsub, hreg, hver, hok]

/-- Witness for C2 at concrete inputs: for tower 0 in subscription
error, a failing register transport yields the transient subscription
error, and a verifying receipt accepted by `add_update_tower` proceeds
to the submission loop. -/
theorem subscription_error_reregisters_first_witness :
    (Retrier.run ⟨.error (), .Ok, fun _ => .requestError false⟩ 1 (Retrier.mk 0 ∅ .Running)
        sysS = some (.error (.transient
          (.Subscription "Cannot renew registration with tower" false),
          Retrier.mk 0 ∅ .Running, sysS))) ∧
    (Retrier.run ⟨.ok ⟨0⟩, .Ok, fun _ => .requestError false⟩ 1 (Retrier.mk 0 ∅ .Running)
        sysS = runLoop ⟨.ok ⟨0⟩, .Ok, fun _ => .requestError false⟩ 0 1
          (Retrier.mk 0 ∅ .Running, sysS.emit (.addUpdateTower 0))) := by
  constructor
  · exact (subscription_error_reregisters_first ⟨.error (), .Ok, fun _ => .requestError false⟩
      1 (Retrier.mk 0 ∅ .Running) sysS towerS rfl rfl).1 rfl
  · exact (subscription_error_reregisters_first ⟨.ok ⟨0⟩, .Ok, fun _ => .requestError false⟩
      1 (Retrier.mk 0 ∅ .Running) sysS towerS rfl rfl).2.2.2 ⟨0⟩ rfl rfl rfl

/-- Witness for C1 (amended) at a concrete input: a `Failed` retrier
with pending locator 0 does not remain after the reap pass. -/
theorem reap_retains_iff_witness :
    ((RetryManager.reapPass ⟨fun t => if t = 0 then some (Retrier.mk 0 {0} .Failed) else none⟩
        wt0).1.retriers 0 = some (Retrier.mk 0 {0} .Failed)) ↔
      ((fun t => if t = 0 then some (Retrier.mk 0 {0} .Failed) else none) 0 =
          some (Retrier.mk 0 {0} .Failed) ∧
        ((Retrier.mk 0 {0} .Failed).status = .Running ∨
          (∃ t0, (Retrier.mk 0 {0} .Failed).status = .Idle t0) ∨
          ((Retrier.mk 0 {0} .Failed).status = .Stopped ∧
            (Retrier.mk 0 {0} .Failed).pending ≠ ∅))) :=
  reap_retains_iff ⟨fun t => if t = 0 then some (Retrier.mk 0 {0} .Failed) else none⟩ wt0 0
    (Retrier.mk 0 {0} .Failed)
